import Mathlib

/-!
Shallow embedding of the interview-assistant generation pipeline:
embedding-similarity rejection, the retry strategy, the key-value
persistence layer, and the question/tip orchestration services
(synchronous and streaming variants), together with theorems settling
the specification claims about them.
-/

namespace InterviewAssistant

/-! ### Embedding provider (core/ai/embeddings.py)

Vectors are modelled as lists of reals; `dot` is `np.dot`, `norm` is
`np.linalg.norm` (the Euclidean norm, the square root of the
self-dot-product), and `cosine_similarity` mirrors
`OpenAIEmbedder._cosine_similarity` including its zero-norm guard.
`are_embeddings_different` is the strict-`<`-threshold check of
`OpenAIEmbedder.are_embeddings_different`, and
`is_embedding_different_from_list` is the `all(...)` combinator.
The pydantic field `similarity_threshold` constrains the configurable
threshold to `[0, 1]`, captured by `valid_threshold`. -/

def dot (v1 v2 : List ℝ) : ℝ := (List.zipWith (fun a b => a * b) v1 v2).sum

noncomputable def norm (v : List ℝ) : ℝ := Real.sqrt (dot v v)

noncomputable def cosine_similarity (v1 v2 : List ℝ) : ℝ :=
  if norm v1 = 0 ∨ norm v2 = 0 then 0 else dot v1 v2 / (norm v1 * norm v2)

def are_embeddings_different (threshold : ℝ) (e1 e2 : List ℝ) : Prop :=
  cosine_similarity e1 e2 < threshold

def is_embedding_different_from_list (threshold : ℝ) (e : List ℝ)
    (l : List (List ℝ)) : Prop :=
  ∀ x ∈ l, are_embeddings_different threshold e x

def valid_threshold (t : ℝ) : Prop := 0 ≤ t ∧ t ≤ 1

theorem dot_self_nonneg (v : List ℝ) : 0 ≤ dot v v := by
  induction v with
  | nil => simp [dot]
  | cons a l ih =>
    simp only [dot, List.zipWith_cons_cons, List.sum_cons] at *
    exact add_nonneg (mul_self_nonneg a) ih

theorem dot_comm (v1 v2 : List ℝ) : dot v1 v2 = dot v2 v1 := by
  induction v1 generalizing v2 with
  | nil => cases v2 <;> simp [dot]
  | cons a l ih =>
    cases v2 with
    | nil => simp [dot]
    | cons b m =>
      simp only [dot, List.zipWith_cons_cons, List.sum_cons] at *
      rw [mul_comm, ih]

theorem norm_eq_zero_iff (v : List ℝ) : norm v = 0 ↔ dot v v = 0 := by
  unfold norm
  exact Real.sqrt_eq_zero (dot_self_nonneg v)

theorem cosine_similarity_comm (v1 v2 : List ℝ) :
    cosine_similarity v1 v2 = cosine_similarity v2 v1 := by
  unfold cosine_similarity
  by_cases h : norm v1 = 0 ∨ norm v2 = 0
  · rw [if_pos h, if_pos h.symm]
  · rw [if_neg h, if_neg (fun hc => h hc.symm), dot_comm, mul_comm]

theorem cosine_similarity_self (v : List ℝ) (hv : norm v ≠ 0) :
    cosine_similarity v v = 1 := by
  have hd : dot v v ≠ 0 := fun h => hv ((norm_eq_zero_iff v).mpr h)
  unfold cosine_similarity
  rw [if_neg (fun h => hv (h.elim id id))]
  unfold norm
  rw [Real.mul_self_sqrt (dot_self_nonneg v)]
  exact div_self hd

/-! ### Retry strategy (core/utils/retry.py)

`retry_execute` models `RetryStrategy.execute`: the operation is a
state-transforming computation (the state threads the call counter of
the stub generator and the store); on an exception whose `should_retry`
is false the loop breaks, and in either exit it raises a `ValueError`
whose message interpolates the name of the wrapped function, the
lowered error label, `max_attempts` and the string of the last
exception.
`stream_retry_loop` models the `while attempt < max_attempts` loops of
`TipService.generate_tip_stream` / `AsyncQuestionService`
`.generate_question_stream`: there, exhaustion (or a non-retryable
exception) re-raises the last exception bare, and if the loop exits
normally nothing further is yielded (`Except.ok none`). -/

def last_error_str : Option String → String
  | none => "None"
  | some e => e

def lower_char (c : Char) : Char :=
  if 65 ≤ c.toNat ∧ c.toNat ≤ 90 then Char.ofNat (c.toNat + 32) else c

def lower_string (s : String) : String := String.mk (s.data.map lower_char)

def exhaustion_message (fname error_message : String) (max_attempts : Nat)
    (last : String) : String :=
  "Function \x27" ++ fname ++ "\x27 " ++ lower_string error_message ++ " after " ++
    toString max_attempts ++ " attempts. Last error: " ++ last

def retry_execute_go {σ α : Type} (max_attempts : Nat) (should_retry : String → Bool)
    (error_message fname : String) (op : σ → Except String α × σ) :
    Nat → Option String → σ → Except String α × σ
  | 0, last, st =>
    (Except.error (exhaustion_message fname error_message max_attempts
      (last_error_str last)), st)
  | fuel + 1, _, st =>
    match op st with
    | (Except.ok a, st') => (Except.ok a, st')
    | (Except.error e, st') =>
      if should_retry e then
        retry_execute_go max_attempts should_retry error_message fname op fuel
          (some e) st'
      else
        (Except.error (exhaustion_message fname error_message max_attempts e), st')

def retry_execute {σ α : Type} (max_attempts : Nat) (should_retry : String → Bool)
    (error_message fname : String) (op : σ → Except String α × σ) (st : σ) :
    Except String α × σ :=
  retry_execute_go max_attempts should_retry error_message fname op max_attempts
    none st

def stream_retry_loop {σ α : Type} (should_retry : String → Bool)
    (op : σ → Except String α × σ) :
    Nat → σ → Except String (Option α) × σ
  | 0, st => (Except.ok none, st)
  | fuel + 1, st =>
    match op st with
    | (Except.ok a, st') => (Except.ok (some a), st')
    | (Except.error e, st') =>
      if fuel = 0 ∨ should_retry e = false then (Except.error e, st')
      else stream_retry_loop should_retry op fuel st'

/-! ### Persistence layer (storage/storage.py)

A single generic key-value store underlies `QuestionStorage` and
`TipStorage`.  `items` is the hash map `key -> record`, `index` holds
the set-membership pairs `(parent key, id)` written by `sadd`, and
`seq` counts how many identifiers have been drawn (`uuid.uuid1()` is
called once at the top of every add, whether or not the add succeeds);
the identifier generator `id_gen` is a parameter of the model so that
collisions are expressible.  `add` mirrors `add_question`/`add_tip`:
it draws an id, raises (writing nothing) if the key already exists,
and otherwise writes the record and its parent-index entry.  Key
expiration is refreshed on every write in the source; no claim
observes the TTL, so it is not part of the state. -/

structure KVStore (α : Type) where
  items : List (Nat × α)
  index : List (Nat × Nat)
  seq : Nat
deriving Repr, DecidableEq

def KVStore.lookup {α : Type} (s : KVStore α) (k : Nat) : Option α :=
  List.lookup k s.items

def KVStore.add {α : Type} (label : String) (id_gen : Nat → Nat) (parent : Nat)
    (c : α) (s : KVStore α) : Except String Nat × KVStore α :=
  let id := id_gen s.seq
  if (s.lookup id).isSome then
    (Except.error (label ++ " with ID " ++ toString id ++ " already exists."),
      { s with seq := s.seq + 1 })
  else
    (Except.ok id,
      { items := (id, c) :: s.items, index := (parent, id) :: s.index,
        seq := s.seq + 1 })

def KVStore.ids_of {α : Type} (s : KVStore α) (parent : Nat) : List Nat :=
  (s.index.filter (fun p => p.1 == parent)).map (fun p => p.2)

def KVStore.list_by_parent {α : Type} (s : KVStore α) (parent : Nat) : List α :=
  (s.ids_of parent).filterMap s.lookup

/-! ### Content schemas (core/schemas.py) -/

structure QuestionContent where
  question : String
  expected_answer : String
  evaluation_criteria : String
  expected_duration : String
deriving DecidableEq, Repr

structure TipContent where
  tip : String
deriving DecidableEq, Repr

/-! ### Service configuration

The services receive their collaborators by dependency injection: the
embedder (its `get_embedding` as `embed` over an abstract embedding
type `Emb`, and its `are_embeddings_different` as the boolean
`is_diff`), the retry strategy fields, and the identifier generator of
the store.  The content generator is modelled as a stub indexed by its
invocation count and receiving the previous-texts argument, returning
either a parsed content object or the message of the exception it
raises. -/

structure ServiceCfg (Emb : Type) where
  embed : String → Emb
  is_diff : Emb → Emb → Bool
  max_attempts : Nat
  should_retry : String → Bool
  error_message : String
  id_gen : Nat → Nat

/-! ### Question service (core/services.py, QuestionService)

`question_gen_op` is the closure `generate_and_validate` of
`_generate_unique_question`: with an empty stored-embedding scope the
generator is called with an empty previous-question list and its
result returned unchecked; otherwise the candidate is generated
against the previous texts, embedded, and rejected (raising the
too-similar `ValueError`) unless it differs from every stored
embedding.  State is the generator call counter plus the question
store.  `generate_unique_question` wraps the closure in the retry
strategy; `generate_questions` fetches the stored questions of the
user once, then runs the loop `n` times, persisting each accepted candidate
and appending its text and embedding to the context for the next
iteration. -/

structure QState where
  calls : Nat
  store : KVStore QuestionContent
deriving DecidableEq

def question_gen_op {Emb : Type} (cfg : ServiceCfg Emb)
    (gen : Nat → List String → Except String QuestionContent)
    (previous_questions_text : List String) (stored_embeddings : List Emb)
    (st : QState) : Except String QuestionContent × QState :=
  if stored_embeddings.isEmpty then
    (gen st.calls [], { st with calls := st.calls + 1 })
  else
    match gen st.calls previous_questions_text with
    | Except.error e => (Except.error e, { st with calls := st.calls + 1 })
    | Except.ok candidate =>
      if stored_embeddings.all (fun s => cfg.is_diff (cfg.embed candidate.question) s)
      then (Except.ok candidate, { st with calls := st.calls + 1 })
      else (Except.error "Generated question is too similar to existing ones",
        { st with calls := st.calls + 1 })

def generate_unique_question {Emb : Type} (cfg : ServiceCfg Emb)
    (gen : Nat → List String → Except String QuestionContent)
    (previous_questions_text : List String) (stored_embeddings : List Emb)
    (st : QState) : Except String QuestionContent × QState :=
  retry_execute cfg.max_attempts cfg.should_retry cfg.error_message
    "generate_and_validate"
    (question_gen_op cfg gen previous_questions_text stored_embeddings) st

def generate_questions_loop {Emb : Type} (cfg : ServiceCfg Emb)
    (gen : Nat → List String → Except String QuestionContent) (user : Nat) :
    Nat → List String → List Emb → QState →
      Except String (List (Nat × QuestionContent)) × QState
  | 0, _, _, st => (Except.ok [], st)
  | n + 1, previous_questions_text, stored_embeddings, st =>
    match generate_unique_question cfg gen previous_questions_text
        stored_embeddings st with
    | (Except.error e, st') => (Except.error e, st')
    | (Except.ok candidate, st') =>
      match KVStore.add "Question" cfg.id_gen user candidate st'.store with
      | (Except.error e, store') => (Except.error e, { st' with store := store' })
      | (Except.ok id, store') =>
        match generate_questions_loop cfg gen user n
            (previous_questions_text ++ [candidate.question])
            (stored_embeddings ++ [cfg.embed candidate.question])
            { st' with store := store' } with
        | (Except.ok rest, st'') => (Except.ok ((id, candidate) :: rest), st'')
        | (Except.error e, st'') => (Except.error e, st'')

def generate_questions {Emb : Type} (cfg : ServiceCfg Emb)
    (gen : Nat → List String → Except String QuestionContent) (user : Nat)
    (n : Nat) (st : QState) :
    Except String (List (Nat × QuestionContent)) × QState :=
  let stored := st.store.list_by_parent user
  generate_questions_loop cfg gen user n (stored.map (fun q => q.question))
    (stored.map (fun q => cfg.embed q.question)) st

/-! ### Tip service (core/services.py, TipService)

`tip_gen_op` is the closure `generate_and_validate` of
`generate_tip_wrapper`: generate a candidate against the previous tip
texts, embed it, raise the too-similar `ValueError` unless it differs
from every stored embedding, and then call `tip_storage.add_tip`
*inside* the closure (so an `add_tip` exception is raised inside the
retried operation).  `generate_tip` first requires the question to
exist, then — when the question has no stored tips — calls the
generator once, with no retry wrapper, and adds the result; otherwise
it defers to the retry-wrapped closure. -/

structure TState where
  calls : Nat
  qstore : KVStore QuestionContent
  tstore : KVStore TipContent
deriving DecidableEq

def tip_gen_op {Emb : Type} (cfg : ServiceCfg Emb)
    (gen : Nat → List String → Except String TipContent) (question_id : Nat)
    (previous_tips_text : List String) (stored_embeddings : List Emb)
    (st : TState) : Except String (Nat × TipContent) × TState :=
  match gen st.calls previous_tips_text with
  | Except.error e => (Except.error e, { st with calls := st.calls + 1 })
  | Except.ok candidate =>
    if stored_embeddings.all (fun s => cfg.is_diff (cfg.embed candidate.tip) s)
    then
      match KVStore.add "Tip" cfg.id_gen question_id candidate st.tstore with
      | (Except.ok id, tstore') =>
        (Except.ok (id, candidate), { st with calls := st.calls + 1, tstore := tstore' })
      | (Except.error e, tstore') =>
        (Except.error e, { st with calls := st.calls + 1, tstore := tstore' })
    else
      (Except.error "Generated tip is too similar to existing ones",
        { st with calls := st.calls + 1 })

def generate_tip_wrapper {Emb : Type} (cfg : ServiceCfg Emb)
    (gen : Nat → List String → Except String TipContent) (question_id : Nat)
    (previous_tips_text : List String) (stored_embeddings : List Emb)
    (st : TState) : Except String (Nat × TipContent) × TState :=
  retry_execute cfg.max_attempts cfg.should_retry cfg.error_message
    "generate_and_validate"
    (tip_gen_op cfg gen question_id previous_tips_text stored_embeddings) st

def generate_tip {Emb : Type} (cfg : ServiceCfg Emb)
    (gen : Nat → List String → Except String TipContent) (question_id : Nat)
    (st : TState) : Except String (Nat × TipContent) × TState :=
  match st.qstore.lookup question_id with
  | none =>
    (Except.error ("Question for id " ++ toString question_id ++ " does not exist"),
      st)
  | some _ =>
    let stored_tips := st.tstore.list_by_parent question_id
    if stored_tips.isEmpty then
      match gen st.calls [] with
      | Except.error e => (Except.error e, { st with calls := st.calls + 1 })
      | Except.ok candidate =>
        match KVStore.add "Tip" cfg.id_gen question_id candidate st.tstore with
        | (Except.ok id, tstore') =>
          (Except.ok (id, candidate),
            { st with calls := st.calls + 1, tstore := tstore' })
        | (Except.error e, tstore') =>
          (Except.error e, { st with calls := st.calls + 1, tstore := tstore' })
    else
      generate_tip_wrapper cfg gen question_id
        (stored_tips.map (fun t => t.tip))
        (stored_tips.map (fun t => cfg.embed t.tip)) st

/-! ### Streaming generators (content_generation/*.py) and the stream loop body

`kept_chunks` keeps the truthy delta contents (`if chunk...delta.content:`
skips empty fragments).  One streaming attempt of
`OpenAITipContentGenerator.generate_tip_content_stream` resets the
buffer `_current_tip` to the empty string, then appends and yields
each kept fragment; `get_complete_tip` returns `TipContent(tip=buffer)`
unconditionally.  The question-side accessor
`AsyncOpenAIQuestionContentGenerator.get_complete_question` raises
when `_current_question` is still `None`, and `_current_question` is
assigned (from the parsed accumulated text) only after the provider
stream is exhausted.  Abandonment after `k` consumed fragments leaves
the tip buffer holding the first `k` fragments, and leaves the parsed
question unset whenever some fragments were yet to come.
`tip_stream_op` is the body of the `while` loop of
`TipService.generate_tip_stream`: stream one full attempt (resetting
the buffer), take the completed tip, validate it against the stored
embeddings when there are any, and store it. -/

def kept_chunks (chunks : List String) : List String :=
  chunks.filter (fun c => ¬ c.isEmpty)

def tip_buffer_after (chunks : List String) (k : Nat) : String :=
  String.join ((kept_chunks chunks).take k)

def question_state_after (parse : String → QuestionContent) (chunks : List String)
    (k : Nat) : Option QuestionContent :=
  if (kept_chunks chunks).length ≤ k then
    some (parse (String.join (kept_chunks chunks)))
  else none

def get_complete_tip (buffer : String) : Except String TipContent :=
  Except.ok { tip := buffer }

def get_complete_question : Option QuestionContent → Except String QuestionContent
  | none => Except.error "No question has been generated yet"
  | some q => Except.ok q

structure TipStreamState where
  calls : Nat
  buffer : String
  tstore : KVStore TipContent
deriving DecidableEq

def tip_stream_op {Emb : Type} (cfg : ServiceCfg Emb) (chunks : Nat → List String)
    (question_id : Nat) (stored_embeddings : List Emb) (st : TipStreamState) :
    Except String (Nat × TipContent) × TipStreamState :=
  let kept := kept_chunks (chunks st.calls)
  let buffer' := String.join kept
  let st1 : TipStreamState := { st with calls := st.calls + 1, buffer := buffer' }
  let complete_tip : TipContent := { tip := buffer' }
  if ¬ stored_embeddings.isEmpty ∧
      ¬ (stored_embeddings.all (fun s => cfg.is_diff (cfg.embed complete_tip.tip) s))
  then
    (Except.error "Generated tip is too similar to existing ones", st1)
  else
    match KVStore.add "Tip" cfg.id_gen question_id complete_tip st1.tstore with
    | (Except.ok id, tstore') =>
      (Except.ok (id, complete_tip), { st1 with tstore := tstore' })
    | (Except.error e, tstore') =>
      (Except.error e, { st1 with tstore := tstore' })

/-! ### Small concrete embedding facts used by witnesses -/

theorem dot_single_one : dot [(1 : ℝ)] [(1 : ℝ)] = 1 := by
  simp [dot]

theorem norm_single_one : norm [(1 : ℝ)] = 1 := by
  rw [norm, dot_single_one, Real.sqrt_one]

theorem norm_single_zero : norm [(0 : ℝ)] = 0 := by
  have hd : dot [(0 : ℝ)] [(0 : ℝ)] = 0 := by simp [dot]
  rw [norm, hd, Real.sqrt_zero]

theorem cos_single_one_self : cosine_similarity [(1 : ℝ)] [(1 : ℝ)] = 1 :=
  cosine_similarity_self [(1 : ℝ)] (by rw [norm_single_one]; exact one_ne_zero)

/-- Claim C3: the pair-difference check reports "different" exactly when the
cosine similarity is strictly below the configured threshold, and a pair whose
cosine similarity equals the threshold is classified as not different. -/
theorem claim3_strict_threshold (t : ℝ) (e1 e2 : List ℝ) :
    (are_embeddings_different t e1 e2 ↔ cosine_similarity e1 e2 < t) ∧
    (cosine_similarity e1 e2 = t → ¬ are_embeddings_different t e1 e2) := by
  refine ⟨Iff.rfl, fun h hd => ?_⟩
  rw [are_embeddings_different, h] at hd
  exact lt_irrefl t hd

/-- Witness for C3 at the identical pair `[1], [1]` with threshold 1: the
similarity is exactly the threshold and the pair is classified as not
different. -/
theorem claim3_strict_threshold_witness :
    cosine_similarity [(1 : ℝ)] [(1 : ℝ)] = 1 ∧
      ¬ are_embeddings_different 1 [(1 : ℝ)] [(1 : ℝ)] :=
  ⟨cos_single_one_self,
    (claim3_strict_threshold 1 [(1 : ℝ)] [(1 : ℝ)]).2 cos_single_one_self⟩

/-- Counterexample to C7 as stated: the similarity threshold is configurable
over the closed interval `[0, 1]`, and at the configured threshold `0` a pair
with a zero-norm member has cosine similarity `0` but is classified as NOT
different, so the zero-norm pair is not reported "different" for every
configured threshold. -/
theorem claim7_counterexample :
    valid_threshold 0 ∧ norm [(0 : ℝ)] = 0 ∧
      cosine_similarity [(0 : ℝ)] [(1 : ℝ)] = 0 ∧
      ¬ are_embeddings_different 0 [(0 : ℝ)] [(1 : ℝ)] := by
  have hc : cosine_similarity [(0 : ℝ)] [(1 : ℝ)] = 0 := by
    rw [cosine_similarity, if_pos (Or.inl norm_single_zero)]
  refine ⟨⟨le_refl 0, zero_le_one⟩, norm_single_zero, hc, fun h => ?_⟩
  rw [are_embeddings_different, hc] at h
  exact lt_irrefl 0 h

/-- Claim C7 (amended): for every pair with a zero-norm member the cosine
similarity is defined as 0, and for every strictly positive configured
threshold the pair is therefore reported as different. -/
theorem claim7_zero_norm (t : ℝ) (e1 e2 : List ℝ)
    (h : norm e1 = 0 ∨ norm e2 = 0) (ht : 0 < t) :
    cosine_similarity e1 e2 = 0 ∧ are_embeddings_different t e1 e2 := by
  have hc : cosine_similarity e1 e2 = 0 := by rw [cosine_similarity, if_pos h]
  exact ⟨hc, by rw [are_embeddings_different, hc]; exact ht⟩

/-- Witness for the amended C7 at the pair `[0], [1]` with the default
threshold `0.8`. -/
theorem claim7_zero_norm_witness :
    (norm [(0 : ℝ)] = 0 ∨ norm [(1 : ℝ)] = 0) ∧ (0 : ℝ) < 0.8 ∧
      cosine_similarity [(0 : ℝ)] [(1 : ℝ)] = 0 ∧
      are_embeddings_different 0.8 [(0 : ℝ)] [(1 : ℝ)] := by
  have h : norm [(0 : ℝ)] = 0 ∨ norm [(1 : ℝ)] = 0 := Or.inl norm_single_zero
  have ht : (0 : ℝ) < 0.8 := by norm_num
  exact ⟨h, ht, claim7_zero_norm 0.8 [(0 : ℝ)] [(1 : ℝ)] h ht⟩

/-- Counterexample to C8 as stated: the zero vector compared against itself
has cosine similarity 0 (by the zero-norm guard), which is below the default
threshold 0.8, so the same-vector comparison is reported as different — not
"not different" as the claim asserts for every vector. -/
theorem claim8_counterexample :
    valid_threshold 0.8 ∧ are_embeddings_different 0.8 [(0 : ℝ)] [(0 : ℝ)] := by
  have hc : cosine_similarity [(0 : ℝ)] [(0 : ℝ)] = 0 := by
    rw [cosine_similarity, if_pos (Or.inl norm_single_zero)]
  refine ⟨⟨by norm_num, by norm_num⟩, ?_⟩
  rw [are_embeddings_different, hc]
  norm_num

/-- Claim C8 (amended): for every vector of nonzero norm, comparing it against
itself yields cosine similarity exactly 1, which meets or exceeds any
configured threshold (at most 1), so the pair is classified as not
different. -/
theorem claim8_self_not_different (t : ℝ) (A : List ℝ) (hA : norm A ≠ 0)
    (ht : t ≤ 1) :
    cosine_similarity A A = 1 ∧ ¬ are_embeddings_different t A A := by
  have h1 := cosine_similarity_self A hA
  exact ⟨h1, by rw [are_embeddings_different, h1]; exact not_lt.mpr ht⟩

/-- Witness for the amended C8 at the vector `[1]` with the default
threshold `0.8`. -/
theorem claim8_self_not_different_witness :
    norm [(1 : ℝ)] ≠ 0 ∧ (0.8 : ℝ) ≤ 1 ∧
      cosine_similarity [(1 : ℝ)] [(1 : ℝ)] = 1 ∧
      ¬ are_embeddings_different 0.8 [(1 : ℝ)] [(1 : ℝ)] := by
  have hA : norm [(1 : ℝ)] ≠ 0 := by rw [norm_single_one]; exact one_ne_zero
  have ht : (0.8 : ℝ) ≤ 1 := by norm_num
  exact ⟨hA, ht, claim8_self_not_different 0.8 [(1 : ℝ)] hA ht⟩

/-! ### Generic exhaustion lemmas for the two retry loops

`c` is a measure counting how many times the operation has run (the
generator call counter); both loops run the operation once per
attempt. -/

theorem retry_go_always_fail {σ α : Type} (m : Nat) (should_retry : String → Bool)
    (msg fname : String) (op : σ → Except String α × σ) (c : σ → Nat)
    (errs : Nat → String)
    (hop : ∀ s, (op s).1 = Except.error (errs (c s)) ∧ c (op s).2 = c s + 1)
    (hretry : ∀ k, should_retry (errs k) = true) :
    ∀ fuel, 1 ≤ fuel → ∀ last s,
      (retry_execute_go m should_retry msg fname op fuel last s).1 =
          Except.error (exhaustion_message fname msg m (errs (c s + fuel - 1))) ∧
        c (retry_execute_go m should_retry msg fname op fuel last s).2 =
          c s + fuel := by
  intro fuel
  induction fuel with
  | zero => intro h; exact absurd h (by omega)
  | succ n ih =>
    intro _ last s
    obtain ⟨h1, h2⟩ := hop s
    rcases hos : op s with ⟨fst, snd⟩
    rw [hos] at h1 h2
    simp only at h1 h2
    subst h1
    simp only [retry_execute_go, hos]
    rw [if_pos (hretry (c s))]
    rcases Nat.eq_zero_or_pos n with hn | hn
    · subst hn
      simp only [retry_execute_go, last_error_str]
      exact ⟨rfl, by rw [h2]⟩
    · obtain ⟨ih1, ih2⟩ := ih hn (some (errs (c s))) snd
      rw [h2] at ih1 ih2
      have harith : c s + 1 + n = c s + (n + 1) := by omega
      rw [harith] at ih1 ih2
      exact ⟨ih1, ih2⟩

theorem retry_execute_always_fail {σ α : Type} (m : Nat) (hm : 1 ≤ m)
    (should_retry : String → Bool) (msg fname : String)
    (op : σ → Except String α × σ) (c : σ → Nat) (errs : Nat → String)
    (hop : ∀ s, (op s).1 = Except.error (errs (c s)) ∧ c (op s).2 = c s + 1)
    (hretry : ∀ k, should_retry (errs k) = true) (s : σ) :
    (retry_execute m should_retry msg fname op s).1 =
        Except.error (exhaustion_message fname msg m (errs (c s + m - 1))) ∧
      c (retry_execute m should_retry msg fname op s).2 = c s + m :=
  retry_go_always_fail m should_retry msg fname op c errs hop hretry m hm none s

theorem stream_loop_always_fail {σ α : Type} (should_retry : String → Bool)
    (op : σ → Except String α × σ) (c : σ → Nat) (errs : Nat → String)
    (hop : ∀ s, (op s).1 = Except.error (errs (c s)) ∧ c (op s).2 = c s + 1)
    (hretry : ∀ k, should_retry (errs k) = true) :
    ∀ fuel, 1 ≤ fuel → ∀ s,
      (stream_retry_loop should_retry op fuel s).1 =
          Except.error (errs (c s + fuel - 1)) ∧
        c (stream_retry_loop should_retry op fuel s).2 = c s + fuel := by
  intro fuel
  induction fuel with
  | zero => intro h; exact absurd h (by omega)
  | succ n ih =>
    intro _ s
    obtain ⟨h1, h2⟩ := hop s
    rcases hos : op s with ⟨fst, snd⟩
    rw [hos] at h1 h2
    simp only at h1 h2
    subst h1
    simp only [stream_retry_loop, hos]
    rcases Nat.eq_zero_or_pos n with hn | hn
    · subst hn
      rw [if_pos (Or.inl rfl)]
      exact ⟨rfl, by rw [h2]⟩
    · rw [if_neg (by simp [hretry (c s)]; omega)]
      obtain ⟨ih1, ih2⟩ := ih hn snd
      rw [h2] at ih1 ih2
      refine ⟨?_, by rw [ih2]; omega⟩
      rw [ih1]
      congr 2
      omega

/-- Counterexample to C1 as stated: with a stub operation that always raises
"boom" on each of its 3 permitted attempts (all retryable), the synchronous
retry loop surfaces the wrapped exhaustion `ValueError` while the streaming
retry loop of `generate_tip_stream` re-raises the bare last error, so the two
variants do NOT surface the exhaustion error identically. -/
theorem claim1_counterexample :
    (retry_execute 3 (fun _ => true) "Operation failed" "generate_and_validate"
        (fun (k : Nat) => ((Except.error "boom" : Except String Unit), k + 1)) 0).1 =
      Except.error
        "Function \x27generate_and_validate\x27 operation failed after 3 attempts. Last error: boom" ∧
    (stream_retry_loop (fun _ => true)
        (fun (k : Nat) => ((Except.error "boom" : Except String Unit), k + 1)) 3 0).1 =
      Except.error "boom" ∧
    ("Function \x27generate_and_validate\x27 operation failed after 3 attempts. Last error: boom"
      : String) ≠ "boom" :=
  ⟨rfl, rfl, by decide⟩

/-- Claim C1 (amended): for every operation that raises a retryable exception
on each attempt, both the synchronous retry loop and the streaming retry loop
invoke the operation exactly `max_attempts` times; the synchronous loop then
fails with the exhaustion error wrapping the function label, the lowered
configured message, the attempt count and the last underlying error, whereas
the streaming loop re-raises the last underlying error itself, unwrapped. -/
theorem claim1_exhaustion {σ α : Type} (m : Nat) (hm : 1 ≤ m)
    (should_retry : String → Bool) (msg fname : String)
    (op : σ → Except String α × σ) (c : σ → Nat) (errs : Nat → String)
    (hop : ∀ s, (op s).1 = Except.error (errs (c s)) ∧ c (op s).2 = c s + 1)
    (hretry : ∀ k, should_retry (errs k) = true) (s : σ) :
    (retry_execute m should_retry msg fname op s).1 =
        Except.error (exhaustion_message fname msg m (errs (c s + m - 1))) ∧
      c (retry_execute m should_retry msg fname op s).2 = c s + m ∧
      (stream_retry_loop should_retry op m s).1 =
        Except.error (errs (c s + m - 1)) ∧
      c (stream_retry_loop should_retry op m s).2 = c s + m := by
  obtain ⟨h1, h2⟩ :=
    retry_execute_always_fail m hm should_retry msg fname op c errs hop hretry s
  obtain ⟨h3, h4⟩ := stream_loop_always_fail should_retry op c errs hop hretry m hm s
  exact ⟨h1, h2, h3, h4⟩

/-- Witness for the amended C1: the concrete always-failing stub, 3 attempts,
an always-true retry predicate; the synchronous variant ends in the wrapped
exhaustion error and the streaming variant in the bare "boom", both after
exactly 3 operation calls. -/
theorem claim1_exhaustion_witness :
    (retry_execute 3 (fun _ => true) "Operation failed" "generate_and_validate"
        (fun (k : Nat) => ((Except.error "boom" : Except String Unit), k + 1)) 0).1 =
        Except.error (exhaustion_message "generate_and_validate" "Operation failed" 3 "boom") ∧
      (retry_execute 3 (fun _ => true) "Operation failed" "generate_and_validate"
        (fun (k : Nat) => ((Except.error "boom" : Except String Unit), k + 1)) 0).2 = 3 ∧
      (stream_retry_loop (fun _ => true)
        (fun (k : Nat) => ((Except.error "boom" : Except String Unit), k + 1)) 3 0).1 =
        Except.error "boom" ∧
      (stream_retry_loop (fun _ => true)
        (fun (k : Nat) => ((Except.error "boom" : Except String Unit), k + 1)) 3 0).2 = 3 :=
  claim1_exhaustion 3 (by decide) (fun _ => true) "Operation failed"
    "generate_and_validate"
    (fun (k : Nat) => ((Except.error "boom" : Except String Unit), k + 1))
    (fun k => k) (fun _ => "boom") (fun _ => ⟨rfl, rfl⟩) (fun _ => rfl) 0

/-! ### Claims C4 and C5: store collisions and retry coverage of generation failures -/

theorem retry_go_retry_step {σ α : Type} (m : Nat) (should_retry : String → Bool)
    (msg fname : String) (op : σ → Except String α × σ) (f : Nat)
    (last : Option String) (st : σ) (e : String) (st₁ : σ)
    (h : op st = (Except.error e, st₁)) (hr : should_retry e = true) :
    retry_execute_go m should_retry msg fname op (f + 1) last st =
      retry_execute_go m should_retry msg fname op f (some e) st₁ := by
  simp only [retry_execute_go, h]
  rw [if_pos hr]

def c4_cfg : ServiceCfg Unit :=
  { embed := fun _ => (), is_diff := fun _ _ => true, max_attempts := 3,
    should_retry := fun _ => true, error_message := "Operation failed",
    id_gen := fun s => if s = 1 then 5 else s }

def c4_tst : TState :=
  { calls := 0,
    qstore := { items := [(1, ⟨"q", "a", "c", "d"⟩)], index := [(9, 1)], seq := 2 },
    tstore := { items := [(5, ⟨"t0"⟩)], index := [(1, 5)], seq := 1 } }

def c4_tgen : Nat → List String → Except String TipContent :=
  fun _ _ => Except.ok ⟨"newtip"⟩

/-- Counterexample to C4 as stated: in the concrete tip-service run, the
first attempt of the retried closure ends in a store collision (the freshly
drawn identifier 5 already exists), yet the enclosing `generate_tip` call does
NOT fail: the default retry policy retries the collision like any other
exception, the generator runs a second time, and the call succeeds — so a
store-collision error inside `generate_tip_wrapper` is retried, not fatal. -/
theorem claim4_counterexample :
    (KVStore.add "Tip" c4_cfg.id_gen 1 ⟨"newtip"⟩ c4_tst.tstore).1 =
        Except.error "Tip with ID 5 already exists." ∧
      (generate_tip c4_cfg c4_tgen 1 c4_tst).1 = Except.ok (2, ⟨"newtip"⟩) ∧
      (generate_tip c4_cfg c4_tgen 1 c4_tst).2.calls = 2 :=
  ⟨rfl, rfl, rfl⟩

/-- Claim C4 (amended): (a) an add whose freshly generated identifier already
exists in the store fails without writing anything (items and index are left
unchanged, never overwritten); (b) in the question service the add runs
outside the retry loop, so a store-collision error there aborts the whole
call; (c) but in the tip-service wrapper the add runs inside the retried
closure, so with attempts remaining and a policy that retries the error, a
store-collision error is retried rather than surfaced. -/
theorem claim4_collision {α Emb : Type} (label : String) (id_gen : Nat → Nat)
    (parent : Nat) (content : α) (s : KVStore α)
    (hcol : (s.lookup (id_gen s.seq)).isSome = true)
    (cfg : ServiceCfg Emb)
    (qgen : Nat → List String → Except String QuestionContent) (user n : Nat)
    (prev : List String) (embs : List Emb) (qst : QState)
    (qc : QuestionContent) (qst' : QState) (qe : String)
    (qstore' : KVStore QuestionContent)
    (hq1 : generate_unique_question cfg qgen prev embs qst = (Except.ok qc, qst'))
    (hq2 : KVStore.add "Question" cfg.id_gen user qc qst'.store =
      (Except.error qe, qstore'))
    (tgen : Nat → List String → Except String TipContent) (question_id : Nat)
    (tprev : List String) (tembs : List Emb) (tst : TState) (te : String)
    (tst₁ : TState) (hm : 2 ≤ cfg.max_attempts)
    (ht1 : tip_gen_op cfg tgen question_id tprev tembs tst =
      (Except.error te, tst₁))
    (ht2 : cfg.should_retry te = true) :
    (KVStore.add label id_gen parent content s).1 =
        Except.error (label ++ " with ID " ++ toString (id_gen s.seq) ++
          " already exists.") ∧
      (KVStore.add label id_gen parent content s).2.items = s.items ∧
      (KVStore.add label id_gen parent content s).2.index = s.index ∧
      generate_questions_loop cfg qgen user (n + 1) prev embs qst =
        (Except.error qe, { qst' with store := qstore' }) ∧
      generate_tip_wrapper cfg tgen question_id tprev tembs tst =
        retry_execute_go cfg.max_attempts cfg.should_retry cfg.error_message
          "generate_and_validate"
          (tip_gen_op cfg tgen question_id tprev tembs)
          (cfg.max_attempts - 1) (some te) tst₁ := by
  refine ⟨?_, ?_, ?_, ?_, ?_⟩
  · simp [KVStore.add, hcol]
  · simp [KVStore.add, hcol]
  · simp [KVStore.add, hcol]
  · simp only [generate_questions_loop, hq1, hq2]
  · have hstep := retry_go_retry_step cfg.max_attempts cfg.should_retry
      cfg.error_message "generate_and_validate"
      (tip_gen_op cfg tgen question_id tprev tembs)
      (cfg.max_attempts - 1) none tst te tst₁ ht1 ht2
    have hfuel : (cfg.max_attempts - 1) + 1 = cfg.max_attempts := by omega
    rw [hfuel] at hstep
    exact hstep

def c4w_qgen : Nat → List String → Except String QuestionContent :=
  fun _ _ => Except.ok ⟨"newq", "a", "c", "d"⟩

def c4w_qst : QState :=
  { calls := 0,
    store := { items := [(5, ⟨"q", "a", "c", "d"⟩)], index := [(9, 5)], seq := 1 } }

/-- Witness for the amended C4 at concrete stores whose next generated
identifier collides. -/
theorem claim4_collision_witness :
    (KVStore.add "Tip" c4_cfg.id_gen 1 (⟨"newtip"⟩ : TipContent) c4_tst.tstore).1 =
        Except.error ("Tip" ++ " with ID " ++ toString (c4_cfg.id_gen c4_tst.tstore.seq) ++
          " already exists.") ∧
      (KVStore.add "Tip" c4_cfg.id_gen 1 (⟨"newtip"⟩ : TipContent) c4_tst.tstore).2.items =
        c4_tst.tstore.items ∧
      (KVStore.add "Tip" c4_cfg.id_gen 1 (⟨"newtip"⟩ : TipContent) c4_tst.tstore).2.index =
        c4_tst.tstore.index ∧
      generate_questions_loop c4_cfg c4w_qgen 9 (0 + 1) [] [()] c4w_qst =
        (Except.error "Question with ID 5 already exists.",
          { calls := 1,
            store := { items := [(5, ⟨"q", "a", "c", "d"⟩)], index := [(9, 5)], seq := 2 } }) ∧
      generate_tip_wrapper c4_cfg c4_tgen 1 ["t0"] [()] c4_tst =
        retry_execute_go c4_cfg.max_attempts c4_cfg.should_retry c4_cfg.error_message
          "generate_and_validate" (tip_gen_op c4_cfg c4_tgen 1 ["t0"] [()])
          (c4_cfg.max_attempts - 1) (some "Tip with ID 5 already exists.")
          { calls := 1,
            qstore := { items := [(1, ⟨"q", "a", "c", "d"⟩)], index := [(9, 1)], seq := 2 },
            tstore := { items := [(5, ⟨"t0"⟩)], index := [(1, 5)], seq := 2 } } :=
  claim4_collision "Tip" c4_cfg.id_gen 1 (⟨"newtip"⟩ : TipContent) c4_tst.tstore
    (by decide) c4_cfg c4w_qgen 9 0 [] [()] c4w_qst ⟨"newq", "a", "c", "d"⟩
    { calls := 1,
      store := { items := [(5, ⟨"q", "a", "c", "d"⟩)], index := [(9, 5)], seq := 1 } }
    "Question with ID 5 already exists."
    { items := [(5, ⟨"q", "a", "c", "d"⟩)], index := [(9, 5)], seq := 2 }
    rfl rfl c4_tgen 1 ["t0"] [()] c4_tst "Tip with ID 5 already exists."
    { calls := 1,
      qstore := { items := [(1, ⟨"q", "a", "c", "d"⟩)], index := [(9, 1)], seq := 2 },
      tstore := { items := [(5, ⟨"t0"⟩)], index := [(1, 5)], seq := 2 } }
    (by decide) rfl rfl

def c5_cfg : ServiceCfg Unit :=
  { embed := fun _ => (), is_diff := fun _ _ => true, max_attempts := 3,
    should_retry := fun _ => true, error_message := "Operation failed",
    id_gen := fun s => s }

def c5_tst : TState :=
  { calls := 0,
    qstore := { items := [(1, ⟨"q", "a", "c", "d"⟩)], index := [(9, 1)], seq := 2 },
    tstore := { items := [], index := [], seq := 0 } }

/-- Counterexample to C5 as stated: in the synchronous tip path with an empty
prior-history scope, a retryable generation failure is NOT retried: with
`max_attempts = 3` and an always-true retry predicate, the generator is
invoked exactly once and its raw error escapes to the caller directly. -/
theorem claim5_counterexample :
    c5_cfg.max_attempts = 3 ∧
      (c5_tst.tstore.list_by_parent 1).isEmpty = true ∧
      (generate_tip c5_cfg (fun _ _ => Except.error "gen boom") 1 c5_tst).1 =
        Except.error "gen boom" ∧
      (generate_tip c5_cfg (fun _ _ => Except.error "gen boom") 1 c5_tst).2.calls = 1 :=
  ⟨rfl, rfl, rfl, rfl⟩

/-- Claim C5 (amended): a generation failure raised by the content generator
is absorbed and retried per policy up to `max_attempts` attempts on the
question-service path (both empty and non-empty prior-history scope, since
the empty-scope shortcut lives inside the retried closure) and on the
tip-service path with non-empty history; but on the synchronous tip path with
empty prior history the generator runs exactly once, outside any retry
wrapper, and its failure escapes immediately, unwrapped. -/
theorem claim5_retry_coverage {Emb : Type} (cfg : ServiceCfg Emb)
    (hm : 1 ≤ cfg.max_attempts)
    (qgen : Nat → List String → Except String QuestionContent)
    (tgen : Nat → List String → Except String TipContent)
    (errs : Nat → String)
    (hqgen : ∀ i ts, qgen i ts = Except.error (errs i))
    (htgen : ∀ i ts, tgen i ts = Except.error (errs i))
    (hretry : ∀ k, cfg.should_retry (errs k) = true)
    (prev : List String) (embs : List Emb) (qst : QState)
    (tprev : List String) (tembs : List Emb) (tst : TState)
    (question_id : Nat) (est : TState) (q : QuestionContent)
    (hq : est.qstore.lookup question_id = some q)
    (hempty : (est.tstore.list_by_parent question_id).isEmpty = true) :
    (generate_unique_question cfg qgen prev embs qst).1 =
        Except.error (exhaustion_message "generate_and_validate"
          cfg.error_message cfg.max_attempts
          (errs (qst.calls + cfg.max_attempts - 1))) ∧
      (generate_unique_question cfg qgen prev embs qst).2.calls =
        qst.calls + cfg.max_attempts ∧
      (generate_tip_wrapper cfg tgen question_id tprev tembs tst).1 =
        Except.error (exhaustion_message "generate_and_validate"
          cfg.error_message cfg.max_attempts
          (errs (tst.calls + cfg.max_attempts - 1))) ∧
      (generate_tip_wrapper cfg tgen question_id tprev tembs tst).2.calls =
        tst.calls + cfg.max_attempts ∧
      generate_tip cfg tgen question_id est =
        (Except.error (errs est.calls), { est with calls := est.calls + 1 }) := by
  have hopq : ∀ s : QState,
      (question_gen_op cfg qgen prev embs s).1 = Except.error (errs s.calls) ∧
        (question_gen_op cfg qgen prev embs s).2.calls = s.calls + 1 := by
    intro s
    by_cases h : embs.isEmpty
    · simp [question_gen_op, h, hqgen]
    · simp [question_gen_op, h, hqgen]
  have hopt : ∀ s : TState,
      (tip_gen_op cfg tgen question_id tprev tembs s).1 =
          Except.error (errs s.calls) ∧
        (tip_gen_op cfg tgen question_id tprev tembs s).2.calls = s.calls + 1 := by
    intro s
    simp [tip_gen_op, htgen]
  obtain ⟨h1, h2⟩ := retry_execute_always_fail cfg.max_attempts hm cfg.should_retry
    cfg.error_message "generate_and_validate"
    (question_gen_op cfg qgen prev embs) (fun s => s.calls) errs hopq hretry qst
  obtain ⟨h3, h4⟩ := retry_execute_always_fail cfg.max_attempts hm cfg.should_retry
    cfg.error_message "generate_and_validate"
    (tip_gen_op cfg tgen question_id tprev tembs) (fun s => s.calls) errs hopt
    hretry tst
  refine ⟨h1, h2, h3, h4, ?_⟩
  simp [generate_tip, hq, hempty, htgen]

/-- Witness for the amended C5: the always-failing generator with three
retryable attempts exhausts the question path and the non-empty tip wrapper
path after exactly three calls each, while the empty-scope tip path stops
after a single call with the bare error. -/
theorem claim5_retry_coverage_witness :
    (generate_unique_question c5_cfg (fun _ _ => Except.error "gen boom") ["p"] [()]
        { calls := 0, store := { items := [], index := [], seq := 0 } }).1 =
        Except.error (exhaustion_message "generate_and_validate"
          "Operation failed" 3 "gen boom") ∧
      (generate_unique_question c5_cfg (fun _ _ => Except.error "gen boom") ["p"] [()]
        { calls := 0, store := { items := [], index := [], seq := 0 } }).2.calls = 3 ∧
      (generate_tip_wrapper c5_cfg (fun _ _ => Except.error "gen boom") 1 ["t"] [()]
        c4_tst).1 =
        Except.error (exhaustion_message "generate_and_validate"
          "Operation failed" 3 "gen boom") ∧
      (generate_tip_wrapper c5_cfg (fun _ _ => Except.error "gen boom") 1 ["t"] [()]
        c4_tst).2.calls = 3 ∧
      generate_tip c5_cfg (fun _ _ => Except.error "gen boom") 1 c5_tst =
        (Except.error "gen boom", { c5_tst with calls := 1 }) :=
  claim5_retry_coverage c5_cfg (by decide)
    (fun _ _ => Except.error "gen boom") (fun _ _ => Except.error "gen boom")
    (fun _ => "gen boom") (fun _ _ => rfl) (fun _ _ => rfl) (fun _ => rfl)
    ["p"] [()] { calls := 0, store := { items := [], index := [], seq := 0 } }
    ["t"] [()] c4_tst 1 c5_tst ⟨"q", "a", "c", "d"⟩ rfl rfl

/-! ### Claims C6 and C10: streaming buffers and terminal accessors -/

theorem stream_retry_loop_succ_ok {σ α : Type} (should_retry : String → Bool)
    (op : σ → Except String α × σ) (n : Nat) (st : σ) (a : α) (st1 : σ)
    (h : op st = (Except.ok a, st1)) :
    stream_retry_loop should_retry op (n + 1) st = (Except.ok (some a), st1) := by
  rw [stream_retry_loop, h]

theorem stream_retry_loop_succ_err {σ α : Type} (should_retry : String → Bool)
    (op : σ → Except String α × σ) (n : Nat) (st : σ) (e : String) (st1 : σ)
    (h : op st = (Except.error e, st1)) :
    stream_retry_loop should_retry op (n + 1) st =
      (if n = 0 ∨ should_retry e = false then ((Except.error e : Except String (Option α)), st1)
        else stream_retry_loop should_retry op n st1) := by
  rw [stream_retry_loop, h]

theorem tip_stream_op_cases {Emb : Type} (cfg : ServiceCfg Emb)
    (chunks : Nat → List String) (question_id : Nat) (stored_embeddings : List Emb)
    (st : TipStreamState) :
    (tip_stream_op cfg chunks question_id stored_embeddings st).2.calls =
        st.calls + 1 ∧
      (∀ p, (tip_stream_op cfg chunks question_id stored_embeddings st).1 =
          Except.ok p →
        p.2.tip = String.join (kept_chunks (chunks st.calls))) := by
  unfold tip_stream_op
  by_cases hc : (¬ stored_embeddings.isEmpty ∧
      ¬ (stored_embeddings.all (fun s =>
        cfg.is_diff (cfg.embed (String.join (kept_chunks (chunks st.calls)))) s)))
  · rw [if_pos hc]
    exact ⟨rfl, fun p hp => by cases hp⟩
  · rw [if_neg hc]
    rcases hadd : KVStore.add "Tip" cfg.id_gen question_id
        (⟨String.join (kept_chunks (chunks st.calls))⟩ : TipContent) st.tstore
      with ⟨r, ts'⟩
    cases r with
    | ok id =>
      refine ⟨rfl, fun p hp => ?_⟩
      cases hp
      rfl
    | error e =>
      exact ⟨rfl, fun p hp => by cases hp⟩

/-- Claim C10: whenever the streaming tip loop terminates successfully, the
terminal tip text equals exactly the concatenation of the kept fragments
yielded by the final (accepted) attempt — the attempt at the last generator
call index — regardless of the initial buffer contents or of text streamed by
earlier rejected attempts. -/
theorem claim10_stream_buffer_reset {Emb : Type} (cfg : ServiceCfg Emb)
    (chunks : Nat → List String) (question_id : Nat)
    (stored_embeddings : List Emb) (should_retry : String → Bool) :
    ∀ (fuel : Nat) (st st' : TipStreamState) (id : Nat) (tc : TipContent),
      stream_retry_loop should_retry
          (tip_stream_op cfg chunks question_id stored_embeddings) fuel st =
        (Except.ok (some (id, tc)), st') →
      tc.tip = String.join (kept_chunks (chunks (st'.calls - 1))) ∧
        st.calls < st'.calls := by
  intro fuel
  induction fuel with
  | zero =>
    intro st st' id tc h
    rw [stream_retry_loop] at h
    cases h
  | succ n ih =>
    intro st st' id tc h
    obtain ⟨hcalls, hok⟩ := tip_stream_op_cases cfg chunks question_id
      stored_embeddings st
    rcases hop : tip_stream_op cfg chunks question_id stored_embeddings st
      with ⟨res, st1⟩
    rw [hop] at hcalls
    simp only at hcalls
    cases res with
    | ok a =>
      rw [stream_retry_loop_succ_ok should_retry
        (tip_stream_op cfg chunks question_id stored_embeddings) n st a st1 hop] at h
      cases h
      have hv := hok (id, tc) (by rw [hop])
      refine ⟨?_, by omega⟩
      rw [hcalls]
      simpa using hv
    | error e =>
      rw [stream_retry_loop_succ_err should_retry
        (tip_stream_op cfg chunks question_id stored_embeddings) n st e st1 hop] at h
      by_cases hcond : n = 0 ∨ should_retry e = false
      · rw [if_pos hcond] at h
        simp at h
      · rw [if_neg hcond] at h
        obtain ⟨ih1, ih2⟩ := ih st1 st' id tc h
        exact ⟨ih1, by omega⟩

def c10_cfg : ServiceCfg String :=
  { embed := fun s => s, is_diff := fun a b => a ≠ b, max_attempts := 3,
    should_retry := fun _ => true, error_message := "Operation failed",
    id_gen := fun s => s }

def c10_chunks : Nat → List String :=
  fun i => if i = 0 then ["a", "", "b"] else ["c", "", "d"]

def c10_st : TipStreamState :=
  { calls := 0, buffer := "stale text", tstore := { items := [], index := [], seq := 0 } }

/-- Witness for C10: the first streaming attempt assembles "ab", which is
rejected as a duplicate of the stored embedding, and the second attempt
assembles "cd" and is accepted; the terminal tip is exactly "cd" — the
concatenation of the final attempt, with neither the stale initial buffer nor
the rejected "ab" carried over. -/
theorem claim10_stream_buffer_reset_witness :
    stream_retry_loop c10_cfg.should_retry
        (tip_stream_op c10_cfg c10_chunks 1 ["ab"]) 3 c10_st =
      (Except.ok (some (0, ⟨"cd"⟩)),
        { calls := 2, buffer := "cd",
          tstore := { items := [(0, ⟨"cd"⟩)], index := [(1, 0)], seq := 1 } }) ∧
      ("cd" : String) = String.join (kept_chunks (c10_chunks (2 - 1))) ∧
      c10_st.calls < 2 := by
  have h : stream_retry_loop c10_cfg.should_retry
      (tip_stream_op c10_cfg c10_chunks 1 ["ab"]) 3 c10_st =
      (Except.ok (some (0, ⟨"cd"⟩)),
        { calls := 2, buffer := "cd",
          tstore := { items := [(0, ⟨"cd"⟩)], index := [(1, 0)], seq := 1 } }) := by
    rfl
  have h2 := claim10_stream_buffer_reset c10_cfg c10_chunks 1 ["ab"]
    c10_cfg.should_retry 3 c10_st
    { calls := 2, buffer := "cd",
      tstore := { items := [(0, ⟨"cd"⟩)], index := [(1, 0)], seq := 1 } }
    0 ⟨"cd"⟩ h
  exact ⟨h, h2.1, h2.2⟩

/-- Counterexample to C6 as stated: abandoning the tip stream after a single
consumed fragment (one fragment still pending) does NOT make the terminal
accessor fail with "nothing generated yet": `get_complete_tip` returns a
partially assembled `TipContent` built from the current buffer. -/
theorem claim6_counterexample :
    1 < (kept_chunks ["ab", "cd"]).length ∧
      get_complete_tip (tip_buffer_after ["ab", "cd"] 1) =
        Except.ok ⟨"ab"⟩ :=
  ⟨by decide, rfl⟩

/-- Claim C6 (amended): if a stream is abandoned before the provider signals
completion, the question-side terminal accessor `get_complete_question` fails
with the "nothing generated yet" error (the parsed question is only assigned
after stream exhaustion), but the tip-side terminal accessor
`get_complete_tip` does not fail: it returns a `TipContent` assembled from
the partial buffer accumulated so far. -/
theorem claim6_abandoned_stream (parse : String → QuestionContent)
    (chunks : List String) (k : Nat) (h : k < (kept_chunks chunks).length) :
    get_complete_question (question_state_after parse chunks k) =
        Except.error "No question has been generated yet" ∧
      get_complete_tip (tip_buffer_after chunks k) =
        Except.ok ⟨String.join ((kept_chunks chunks).take k)⟩ := by
  constructor
  · rw [question_state_after, if_neg (by omega)]
    rfl
  · rfl

/-- Witness for the amended C6 at the two-fragment stream abandoned after one
fragment. -/
theorem claim6_abandoned_stream_witness :
    1 < (kept_chunks ["ab", "cd"]).length ∧
      get_complete_question
          (question_state_after (fun s => ⟨s, "", "", ""⟩) ["ab", "cd"] 1) =
        Except.error "No question has been generated yet" ∧
      get_complete_tip (tip_buffer_after ["ab", "cd"] 1) =
        Except.ok ⟨String.join ((kept_chunks ["ab", "cd"]).take 1)⟩ :=
  ⟨by decide,
    claim6_abandoned_stream (fun s => ⟨s, "", "", ""⟩) ["ab", "cd"] 1 (by decide)⟩

/-! ### Claims C2 and C9: the question-service batch loop -/

theorem retry_go_ok_prop {σ α : Type} (m : Nat) (should_retry : String → Bool)
    (msg fname : String) (op : σ → Except String α × σ) (P : α → Prop)
    (hP : ∀ s p s2, op s = (Except.ok p, s2) → P p) :
    ∀ (fuel : Nat) (last : Option String) (st : σ) (a : α) (st' : σ),
      retry_execute_go m should_retry msg fname op fuel last st =
        (Except.ok a, st') → P a := by
  intro fuel
  induction fuel with
  | zero =>
    intro last st a st' h
    rw [retry_execute_go] at h
    simp at h
  | succ n ih =>
    intro last st a st' h
    rw [retry_execute_go] at h
    split at h
    · rename_i a1 st1 heq
      cases h
      exact hP _ _ _ heq
    · rename_i e st1 heq
      split at h
      · exact ih (some e) st1 a st' h
      · simp at h

theorem retry_go_preserves {σ α β : Type} (m : Nat) (should_retry : String → Bool)
    (msg fname : String) (op : σ → Except String α × σ) (f : σ → β)
    (hop : ∀ s, f (op s).2 = f s) :
    ∀ (fuel : Nat) (last : Option String) (st : σ),
      f (retry_execute_go m should_retry msg fname op fuel last st).2 = f st := by
  intro fuel
  induction fuel with
  | zero => intro last st; rfl
  | succ n ih =>
    intro last st
    have hs := hop st
    rcases hos : op st with ⟨res, st1⟩
    rw [hos] at hs
    simp only at hs
    simp only [retry_execute_go, hos]
    cases res with
    | ok a => simpa using hs
    | error e =>
      by_cases hr : should_retry e = true
      · simp [hr, ih (some e) st1, hs]
      · simp [hr, hs]

theorem question_gen_op_store {Emb : Type} (cfg : ServiceCfg Emb)
    (gen : Nat → List String → Except String QuestionContent)
    (prev : List String) (embs : List Emb) (st : QState) :
    (question_gen_op cfg gen prev embs st).2.store = st.store := by
  by_cases h : embs.isEmpty
  · simp [question_gen_op, h]
  · rcases hg : gen st.calls prev with e | c
    · simp [question_gen_op, h, hg]
    · by_cases hd : (embs.all fun s => cfg.is_diff (cfg.embed c.question) s)
      · simp [question_gen_op, h, hg, hd]
      · simp [question_gen_op, h, hg, hd]

theorem generate_unique_question_store {Emb : Type} (cfg : ServiceCfg Emb)
    (gen : Nat → List String → Except String QuestionContent)
    (prev : List String) (embs : List Emb) (st : QState) :
    (generate_unique_question cfg gen prev embs st).2.store = st.store :=
  retry_go_preserves cfg.max_attempts cfg.should_retry cfg.error_message
    "generate_and_validate" (question_gen_op cfg gen prev embs)
    (fun s => s.store) (fun s => question_gen_op_store cfg gen prev embs s)
    cfg.max_attempts none st

theorem question_gen_op_ok_check {Emb : Type} (cfg : ServiceCfg Emb)
    (gen : Nat → List String → Except String QuestionContent)
    (prev : List String) (embs : List Emb) (s : QState) (c : QuestionContent)
    (s1 : QState) (hne : embs.isEmpty = false)
    (h : question_gen_op cfg gen prev embs s = (Except.ok c, s1)) :
    embs.all (fun x => cfg.is_diff (cfg.embed c.question) x) = true := by
  unfold question_gen_op at h
  rw [hne] at h
  simp only [Bool.false_eq_true, if_false] at h
  split at h
  · simp at h
  · rename_i cand heq
    split at h
    · rename_i hcheck
      cases h
      exact hcheck
    · simp at h

theorem KVStore.add_mono {α : Type} (label : String) (id_gen : Nat → Nat)
    (parent : Nat) (c : α) (s : KVStore α) :
    s.items ⊆ ((KVStore.add label id_gen parent c s).2).items ∧
      s.index ⊆ ((KVStore.add label id_gen parent c s).2).index := by
  by_cases h : (s.lookup (id_gen s.seq)).isSome
  · simp [KVStore.add, h]
  · simp only [KVStore.add, h, Bool.false_eq_true, if_false]
    exact ⟨List.subset_cons_self _ _, List.subset_cons_self _ _⟩

theorem KVStore.add_ok {α : Type} (label : String) (id_gen : Nat → Nat)
    (parent : Nat) (c : α) (s : KVStore α) (id : Nat) (s' : KVStore α)
    (h : KVStore.add label id_gen parent c s = (Except.ok id, s')) :
    s'.items = (id, c) :: s.items ∧ s'.index = (parent, id) :: s.index := by
  by_cases hc : (s.lookup (id_gen s.seq)).isSome
  · simp [KVStore.add, hc] at h
  · simp only [KVStore.add, hc, Bool.false_eq_true, if_false] at h
    obtain ⟨h1, h2⟩ := Prod.mk.injEq .. ▸ h
    cases h1
    rw [← h2]
    exact ⟨rfl, rfl⟩

theorem generate_questions_loop_mono {Emb : Type} (cfg : ServiceCfg Emb)
    (gen : Nat → List String → Except String QuestionContent) (user : Nat) :
    ∀ (n : Nat) (prev : List String) (embs : List Emb) (st : QState),
      st.store.items ⊆
          ((generate_questions_loop cfg gen user n prev embs st).2).store.items ∧
        st.store.index ⊆
          ((generate_questions_loop cfg gen user n prev embs st).2).store.index := by
  intro n
  induction n with
  | zero =>
    intro prev embs st
    exact ⟨List.Subset.refl _, List.Subset.refl _⟩
  | succ n ih =>
    intro prev embs st
    rw [generate_questions_loop]
    split
    · rename_i e st1 heq
      have hq := generate_unique_question_store cfg gen prev embs st
      rw [heq] at hq
      simp only at hq
      rw [hq]
      exact ⟨List.Subset.refl _, List.Subset.refl _⟩
    · rename_i c st1 heq
      have hq := generate_unique_question_store cfg gen prev embs st
      rw [heq] at hq
      simp only at hq
      split
      · rename_i e store' hadd
        have hmono := KVStore.add_mono "Question" cfg.id_gen user c st1.store
        rw [hadd] at hmono
        simp only at hmono
        rw [hq] at hmono
        exact hmono
      · rename_i id store' hadd
        have hmono := KVStore.add_mono "Question" cfg.id_gen user c st1.store
        rw [hadd] at hmono
        simp only at hmono
        rw [hq] at hmono
        obtain ⟨ihi, ihx⟩ := ih (prev ++ [c.question])
          (embs ++ [cfg.embed c.question]) { st1 with store := store' }
        split
        · rename_i rest st2 hrec
          rw [hrec] at ihi ihx
          simp only at ihi ihx
          exact ⟨List.Subset.trans hmono.1 ihi, List.Subset.trans hmono.2 ihx⟩
        · rename_i e st2 hrec
          rw [hrec] at ihi ihx
          simp only at ihi ihx
          exact ⟨List.Subset.trans hmono.1 ihi, List.Subset.trans hmono.2 ihx⟩

theorem generate_questions_loop_persist {Emb : Type} (cfg : ServiceCfg Emb)
    (gen : Nat → List String → Except String QuestionContent) (user : Nat) :
    ∀ (n : Nat) (prev : List String) (embs : List Emb) (st : QState)
      (L : List (Nat × QuestionContent)) (st' : QState),
      generate_questions_loop cfg gen user n prev embs st = (Except.ok L, st') →
      ∀ p ∈ L, p ∈ st'.store.items ∧ (user, p.1) ∈ st'.store.index := by
  intro n
  induction n with
  | zero =>
    intro prev embs st L st' h p hp
    rw [generate_questions_loop] at h
    cases h
    exact absurd hp (List.not_mem_nil p)
  | succ n ih =>
    intro prev embs st L st' h p hp
    rw [generate_questions_loop] at h
    split at h
    · simp at h
    · rename_i c st1 heq
      split at h
      · simp at h
      · rename_i id store' hadd
        split at h
        · rename_i rest st2 hrec
          cases h
          cases hp with
          | head =>
            obtain ⟨hoki, hokx⟩ := KVStore.add_ok "Question" cfg.id_gen user c
              st1.store id store' hadd
            obtain ⟨hmi, hmx⟩ := generate_questions_loop_mono cfg gen user n
              (prev ++ [c.question]) (embs ++ [cfg.embed c.question])
              { st1 with store := store' }
            rw [hrec] at hmi hmx
            simp only at hmi hmx
            constructor
            · exact hmi (by rw [hoki]; exact List.mem_cons_self _ _)
            · exact hmx (by rw [hokx]; exact List.mem_cons_self _ _)
          | tail _ hp' =>
            exact ih _ _ _ _ _ hrec p hp'
        · simp at h

theorem generate_questions_loop_no_rollback {Emb : Type} (cfg : ServiceCfg Emb)
    (gen : Nat → List String → Except String QuestionContent) (user : Nat) :
    ∀ (j : Nat) (prev : List String) (embs : List Emb) (st : QState)
      (L : List (Nat × QuestionContent)) (st₁ : QState) (n : Nat) (e : String)
      (st₂ : QState), j ≤ n →
      generate_questions_loop cfg gen user j prev embs st = (Except.ok L, st₁) →
      generate_questions_loop cfg gen user n prev embs st = (Except.error e, st₂) →
      ∀ p ∈ L, p ∈ st₂.store.items ∧ (user, p.1) ∈ st₂.store.index := by
  intro j
  induction j with
  | zero =>
    intro prev embs st L st₁ n e st₂ hjn h1 h2 p hp
    rw [generate_questions_loop] at h1
    cases h1
    exact absurd hp (List.not_mem_nil p)
  | succ j' ih =>
    intro prev embs st L st₁ n e st₂ hjn h1 h2 p hp
    cases n with
    | zero => omega
    | succ n' =>
      rw [generate_questions_loop] at h1 h2
      split at h1
      · simp at h1
      · rename_i c st' heq
        split at h1
        · simp at h1
        · rename_i id store' hadd
          split at h1
          · rename_i rest stR hrec1
            cases h1
            split at h2
            · rename_i e2 stE heq2
              rw [heq] at heq2
              simp at heq2
            · rename_i c2 st2x heq2
              rw [heq] at heq2
              cases heq2
              split at h2
              · rename_i e2 storeB hadd2
                rw [hadd] at hadd2
                simp at hadd2
              · rename_i id2 storeB hadd2
                rw [hadd] at hadd2
                cases hadd2
                split at h2
                · rename_i restB stB hrec2
                  simp at h2
                · rename_i e2 stB hrec2
                  cases h2
                  cases hp with
                  | head =>
                    obtain ⟨hoki, hokx⟩ := KVStore.add_ok "Question" cfg.id_gen
                      user c st'.store id store' hadd
                    obtain ⟨hmi, hmx⟩ := generate_questions_loop_mono cfg gen
                      user n' (prev ++ [c.question])
                      (embs ++ [cfg.embed c.question]) { st' with store := store' }
                    rw [hrec2] at hmi hmx
                    simp only at hmi hmx
                    exact ⟨hmi (by rw [hoki]; exact List.mem_cons_self _ _),
                      hmx (by rw [hokx]; exact List.mem_cons_self _ _)⟩
                  | tail _ hp' =>
                    exact ih _ _ _ _ _ n' _ _ (by omega) hrec1 hrec2 p hp'
          · simp at h1

/-- Claim C9: in a multi-item question batch, if a run for a larger count
fails (for instance because a later item exhausts its retry budget) while the
run of the same request for a smaller count succeeds with items `L`, then
every item of `L` — the items accepted before the failure point — is still
present in the failing run's final store and indexed under the user: the
failed call does not roll back previously accepted items. -/
theorem claim9_no_rollback {Emb : Type} (cfg : ServiceCfg Emb)
    (gen : Nat → List String → Except String QuestionContent) (user : Nat)
    (j n : Nat) (st : QState) (L : List (Nat × QuestionContent)) (st₁ : QState)
    (e : String) (st₂ : QState) (hjn : j ≤ n)
    (h1 : generate_questions cfg gen user j st = (Except.ok L, st₁))
    (h2 : generate_questions cfg gen user n st = (Except.error e, st₂)) :
    ∀ p ∈ L, p ∈ st₂.store.items ∧ (user, p.1) ∈ st₂.store.index := by
  simp only [generate_questions] at h1 h2
  exact generate_questions_loop_no_rollback cfg gen user j _ _ st L st₁ n e st₂
    hjn h1 h2

def c9_cfg : ServiceCfg Unit :=
  { embed := fun _ => (), is_diff := fun _ _ => true, max_attempts := 1,
    should_retry := fun _ => true, error_message := "Operation failed",
    id_gen := fun s => s }

def c9_gen : Nat → List String → Except String QuestionContent :=
  fun i _ => if i < 2 then Except.ok ⟨"q", "a", "c", "d"⟩ else Except.error "boom"

def c9_st : QState := { calls := 0, store := { items := [], index := [], seq := 0 } }

def c9_q : QuestionContent := ⟨"q", "a", "c", "d"⟩

/-- Witness for C9: item 3 of a 3-item batch fails while a 2-item batch
succeeds; both items accepted by the failing run before the failure remain in
its final store and user index. -/
theorem claim9_no_rollback_witness :
    (0, c9_q) ∈ ((generate_questions c9_cfg c9_gen 9 3 c9_st).2).store.items ∧
      (9, 0) ∈ ((generate_questions c9_cfg c9_gen 9 3 c9_st).2).store.index := by
  have h1 : generate_questions c9_cfg c9_gen 9 2 c9_st =
      (Except.ok [(0, c9_q), (1, c9_q)],
        { calls := 2,
          store :=
            { items := [(1, c9_q), (0, c9_q)], index := [(9, 1), (9, 0)], seq := 2 } }) := rfl
  have h2 : generate_questions c9_cfg c9_gen 9 3 c9_st =
      (Except.error
          (exhaustion_message "generate_and_validate" "Operation failed" 1 "boom"),
        { calls := 3,
          store :=
            { items := [(1, c9_q), (0, c9_q)], index := [(9, 1), (9, 0)], seq := 2 } }) := rfl
  have h := claim9_no_rollback c9_cfg c9_gen 9 2 3 c9_st [(0, c9_q), (1, c9_q)]
    { calls := 2,
      store := { items := [(1, c9_q), (0, c9_q)], index := [(9, 1), (9, 0)], seq := 2 } }
    (exhaustion_message "generate_and_validate" "Operation failed" 1 "boom")
    { calls := 3,
      store := { items := [(1, c9_q), (0, c9_q)], index := [(9, 1), (9, 0)], seq := 2 } }
    (by omega) h1 h2 (0, c9_q) (List.mem_cons_self _ _)
  rw [h2]
  exact h

theorem generate_questions_loop_all_diff {Emb : Type} (cfg : ServiceCfg Emb)
    (gen : Nat → List String → Except String QuestionContent) (user : Nat) :
    ∀ (n : Nat) (prev : List String) (st : QState)
      (L : List (Nat × QuestionContent)) (st' : QState),
      generate_questions_loop cfg gen user n prev (prev.map cfg.embed) st =
        (Except.ok L, st') →
      ∀ (j : Nat) (hj : j < L.length),
        (∀ x ∈ prev,
          cfg.is_diff (cfg.embed ((L.get ⟨j, hj⟩).2.question)) (cfg.embed x) = true) ∧
        (∀ (i : Nat) (hi : i < j),
          cfg.is_diff (cfg.embed ((L.get ⟨j, hj⟩).2.question))
            (cfg.embed ((L.get ⟨i, Nat.lt_trans hi hj⟩).2.question)) = true) := by
  intro n
  induction n with
  | zero =>
    intro prev st L st' h j hj
    rw [generate_questions_loop] at h
    cases h
    exact absurd hj (by simp)
  | succ n ih =>
    intro prev st L st' h j hj
    rw [generate_questions_loop] at h
    split at h
    · simp at h
    · rename_i c st1 heq
      split at h
      · simp at h
      · rename_i id store' hadd
        split at h
        · rename_i rest st2 hrec
          cases h
          have hrec' : generate_questions_loop cfg gen user n
              (prev ++ [c.question]) ((prev ++ [c.question]).map cfg.embed)
              { st1 with store := store' } = (Except.ok rest, st') := by
            rw [List.map_append]
            simpa using hrec
          have ihh := ih (prev ++ [c.question]) { st1 with store := store' }
            rest st' hrec'
          have hchk : ∀ x ∈ prev,
              cfg.is_diff (cfg.embed c.question) (cfg.embed x) = true := by
            intro x hx
            have hne : (prev.map cfg.embed).isEmpty = false := by
              cases prev with
              | nil => cases hx
              | cons a l => rfl
            have hall := retry_go_ok_prop cfg.max_attempts cfg.should_retry
              cfg.error_message "generate_and_validate"
              (question_gen_op cfg gen prev (prev.map cfg.embed))
              (fun cc => (prev.map cfg.embed).all
                (fun y => cfg.is_diff (cfg.embed cc.question) y) = true)
              (fun s p s2 hop => question_gen_op_ok_check cfg gen prev
                (prev.map cfg.embed) s p s2 hne hop)
              cfg.max_attempts none st c st1 heq
            exact (List.all_eq_true.mp hall) (cfg.embed x)
              (List.mem_map_of_mem _ hx)
          cases j with
          | zero =>
            refine ⟨fun x hx => hchk x hx, fun i hi => absurd hi (Nat.not_lt_zero i)⟩
          | succ j' =>
            have hj' : j' < rest.length := by simpa using hj
            obtain ⟨ihp, ihi⟩ := ihh j' hj'
            refine ⟨?_, ?_⟩
            · intro x hx
              exact ihp x (List.mem_append_left _ hx)
            · intro i hi
              cases i with
              | zero =>
                exact ihp c.question
                  (List.mem_append_right _ (List.mem_singleton.mpr rfl))
              | succ i' =>
                have hi' : i' < j' := by omega
                exact ihi i' hi'
        · simp at h

/-- Claim C2: when the difference check agrees with the strict
cosine-similarity threshold, a question batch of any size that succeeds from
an initially-empty per-user context returns pairwise non-duplicate stored
items: every pair of distinct returned items has cosine similarity strictly
below the threshold (each accepted item joined the prior-texts and
prior-embeddings context checked against all later items of the batch). -/
theorem claim2_batch_pairwise (cfg : ServiceCfg (List ℝ)) (t : ℝ)
    (gen : Nat → List String → Except String QuestionContent) (user n : Nat)
    (st : QState) (L : List (Nat × QuestionContent)) (st' : QState)
    (hdiff : ∀ s1 s2 : String,
      cfg.is_diff (cfg.embed s1) (cfg.embed s2) = true ↔
        cosine_similarity (cfg.embed s1) (cfg.embed s2) < t)
    (hinit : st.store.list_by_parent user = [])
    (h : generate_questions cfg gen user n st = (Except.ok L, st')) :
    ∀ (i j : Nat) (hi : i < L.length) (hj : j < L.length), i ≠ j →
      cosine_similarity (cfg.embed ((L.get ⟨i, hi⟩).2.question))
        (cfg.embed ((L.get ⟨j, hj⟩).2.question)) < t := by
  have h' : generate_questions_loop cfg gen user n []
      (([] : List String).map cfg.embed) st = (Except.ok L, st') := by
    simp only [generate_questions] at h
    rw [hinit] at h
    simpa using h
  have hall := generate_questions_loop_all_diff cfg gen user n [] st L st' h'
  intro i j hi hj hne
  rcases Nat.lt_or_ge i j with hlt | hge
  · have hd := (hall j hj).2 i hlt
    rw [hdiff] at hd
    rw [cosine_similarity_comm]
    exact hd
  · have hgt : j < i := by omega
    have hd := (hall i hi).2 j hgt
    rw [hdiff] at hd
    exact hd

theorem norm_nil : norm ([] : List ℝ) = 0 := by
  show Real.sqrt 0 = 0
  exact Real.sqrt_zero

theorem cos_nil : cosine_similarity ([] : List ℝ) ([] : List ℝ) = 0 := by
  rw [cosine_similarity, if_pos (Or.inl norm_nil)]

def c2_cfg : ServiceCfg (List ℝ) :=
  { embed := fun _ => [], is_diff := fun _ _ => true, max_attempts := 1,
    should_retry := fun _ => true, error_message := "Operation failed",
    id_gen := fun s => s }

def c2_gen : Nat → List String → Except String QuestionContent :=
  fun _ _ => Except.ok ⟨"q", "a", "c", "d"⟩

def c2_st : QState := { calls := 0, store := { items := [], index := [], seq := 0 } }

def c2_L : List (Nat × QuestionContent) :=
  [(0, ⟨"q", "a", "c", "d"⟩), (1, ⟨"q", "a", "c", "d"⟩), (2, ⟨"q", "a", "c", "d"⟩)]

/-- Witness for C2 at a concrete three-item batch from an empty context. -/
theorem claim2_batch_pairwise_witness :
    c2_st.store.list_by_parent 9 = [] ∧
      (generate_questions c2_cfg c2_gen 9 3 c2_st).1 = Except.ok c2_L ∧
      cosine_similarity (c2_cfg.embed ((c2_L.get ⟨0, by decide⟩).2.question))
        (c2_cfg.embed ((c2_L.get ⟨1, by decide⟩).2.question)) < 1 := by
  have hlt : cosine_similarity ([] : List ℝ) ([] : List ℝ) < 1 := by
    rw [cos_nil]
    norm_num
  have hdiff : ∀ s1 s2 : String,
      c2_cfg.is_diff (c2_cfg.embed s1) (c2_cfg.embed s2) = true ↔
        cosine_similarity (c2_cfg.embed s1) (c2_cfg.embed s2) < 1 :=
    fun s1 s2 => ⟨fun _ => hlt, fun _ => rfl⟩
  have hrun : generate_questions c2_cfg c2_gen 9 3 c2_st =
      (Except.ok c2_L,
        { calls := 3,
          store :=
            { items := [(2, ⟨"q", "a", "c", "d"⟩), (1, ⟨"q", "a", "c", "d"⟩), (0, ⟨"q", "a", "c", "d"⟩)],
              index := [(9, 2), (9, 1), (9, 0)], seq := 3 } }) := rfl
  refine ⟨rfl, by rw [hrun], ?_⟩
  exact claim2_batch_pairwise c2_cfg 1 c2_gen 9 3 c2_st c2_L _ hdiff rfl hrun
    0 1 (by decide) (by decide) (by omega)

end InterviewAssistant
